import Mathlib

/-!
Shallow embedding of the schedule validity and recurrence logic of the
railway operations application (Banda17/scr_coaching1).

Embedded code:
* the recurrence filter of `src/client/src/components/TimelineView.tsx`
  (lines 21-52), which decides whether a schedule contributes a calendar
  event on the current date — the spec's `isActiveOn`;
* the `POST /api/schedules` handler of `src/server/routes.ts`
  (lines 306-483): the zod `scheduleSchema` parse, the SALOON/FTR
  attach/detach checks, the train-type gate, and the construction of the
  inserted `scheduleData` — the spec's `validateSchedule`;
* the status state machine of spec section 4.2 (`applyStatusTransition`),
  which has no implementation under src/ and is modelled from the spec.

Timestamps are modelled as naturals counting milliseconds since the Unix
epoch (dates at or after 1970-01-01), with calendar computations done in
UTC; JavaScript `Date` comparison is integer comparison of these values.
-/

namespace RailOps

/-- Milliseconds since the Unix epoch (UTC model, dates from 1970 on). -/
abbrev Millis := Nat

/-- Milliseconds in one day. -/
def msPerDay : Nat := 86400000

/-- JavaScript `Date.prototype.getDay` in the UTC model:
Sunday = 0 … Saturday = 6.  Day 0 (1970-01-01) was a Thursday (4). -/
def jsGetDay (t : Millis) : Nat :=
  (t / msPerDay + 4) % 7

/-- `src/client/src/components/TimelineView.tsx` line 24:
`const currentDayOfWeek = (currentDate.getDay() + 6) % 7`, converting the
platform convention Sunday = 0 to Monday = 0 … Sunday = 6. -/
def dayOfWeekMon0 (t : Millis) : Nat :=
  (jsGetDay t + 6) % 7

/-- Calendar-day index of a timestamp (day granularity). -/
def dayOf (t : Millis) : Nat := t / msPerDay

/-- Schedule status values (`src/db/schema.ts`, status column). -/
inductive Status where
  | scheduled
  | running
  | delayed
  | completed
  | cancelled
  deriving DecidableEq

/-- Attach status values (`pending`/`completed`/`cancelled`). -/
inductive AttachStatus where
  | pending
  | completed
  | cancelled
  deriving DecidableEq

/-- Train types of `src/db/schema.ts` (`TrainType` const object). -/
inductive TrainType where
  | express
  | local
  | freight
  | spic
  | ftr
  | saloon
  | trc
  | passenger
  | mailExpress
  | superfast
  | premium
  | suburban
  | memu
  | demu
  deriving DecidableEq

/-- The train fields the `POST /api/schedules` handler reads. -/
structure Train where
  id : Int
  type : TrainType
  deriving DecidableEq

/-- Train info joined onto a schedule row (`schedule.train` in the client). -/
structure TrainInfo where
  id : Int
  trainNumber : String
  type : TrainType
  deriving DecidableEq

/-- A persisted schedule row as consumed by `TimelineView.tsx` (the fields
the component reads). -/
structure TimelineSchedule where
  id : Int
  trainId : Int
  scheduledDeparture : Millis
  scheduledArrival : Millis
  status : Status
  isCancelled : Bool
  runningDays : List Bool
  effectiveStartDate : Millis
  effectiveEndDate : Option Millis
  train : Option TrainInfo
  deriving DecidableEq

/-- A calendar event produced by `TimelineView.tsx` lines 37-51 (the
presentational `title` string is omitted; `end` is named `stop` because
`end` is a Lean keyword). -/
structure TimelineEvent where
  id : Int
  start : Millis
  stop : Millis
  status : Status
  isCancelled : Bool
  runningDays : List Bool
  deriving DecidableEq

/-- The event-filter condition of `TimelineView.tsx` lines 29-33:
`startDate > currentDate || (endDate && endDate < currentDate) ||
!schedule.runningDays[currentDayOfWeek]`.  Out-of-range indexing yields
JavaScript `undefined`, which is falsy, hence `List.getD _ false`. -/
def timelineFiltered (s : TimelineSchedule) (now : Millis) : Bool :=
  decide (s.effectiveStartDate > now)
    || (match s.effectiveEndDate with
        | some e => decide (e < now)
        | none => false)
    || !(s.runningDays.getD (dayOfWeekMon0 now) false)

/-- `TimelineView.tsx` lines 21-52: a schedule contributes no event when
filtered out, and otherwise exactly one event. -/
def timelineEvents (s : TimelineSchedule) (now : Millis) : List TimelineEvent :=
  if timelineFiltered s now then []
  else [{ id := s.id, start := s.scheduledDeparture, stop := s.scheduledArrival,
          status := s.status, isCancelled := s.isCancelled,
          runningDays := s.runningDays }]

/-- The spec's `isActiveOn`: the schedule is active on the given date
exactly when the timeline filter keeps it (it contributes an event). -/
def isActiveOn (s : TimelineSchedule) (now : Millis) : Bool :=
  !(timelineEvents s now).isEmpty

/-- An `importantStations` waypoint (`routes.ts` lines 326-330). -/
structure Waypoint where
  locationId : Int
  arrivalTime : String
  departureTime : String
  deriving DecidableEq

/-- A request body for `POST /api/schedules` after JSON decoding, i.e. the
input to the zod `scheduleSchema` of `routes.ts` lines 309-353.  `none`
stands for an absent or `null` JSON value; enum and coercion failures are
outside the model (the enum check on `status` is kept because the POST
enum omits `running`). -/
structure ScheduleBody where
  trainId : Int
  departureLocationId : Int
  arrivalLocationId : Int
  scheduledDeparture : Millis
  scheduledArrival : Millis
  status : Option Status
  isCancelled : Option Bool
  runningDays : Option (List Bool)
  effectiveStartDate : Millis
  effectiveEndDate : Option Millis
  detachLocationId : Option Int
  attachLocationId : Option Int
  detachTime : Option Millis
  attachTime : Option Millis
  attachTrainNumber : Option String
  attachStatus : Option AttachStatus
  importantStations : Option (List Waypoint)
  deriving DecidableEq

/-- JavaScript truthiness of an optional number: `undefined`, `null` and
`0` are falsy, every other number truthy. -/
def truthyNum : Option Int → Bool
  | none => false
  | some n => n != 0

/-- JavaScript truthiness of an optional string: `undefined`, `null` and
the empty string are falsy. -/
def truthyStr : Option String → Bool
  | none => false
  | some s => s != ""

/-- JavaScript truthiness of an optional `Date`: a `Date` object is always
truthy, `undefined`/`null` are falsy. -/
def truthyDate : Option Millis → Bool
  | none => false
  | some _ => true

/-- `routes.ts` line 315: the POST enum is
`['scheduled', 'delayed', 'completed', 'cancelled']` — `running` is not
accepted on creation. -/
def statusAllowedPost : Option Status → Bool
  | none => true
  | some .running => false
  | some _ => true

/-- `routes.ts` line 317: `z.array(z.boolean()).length(7).default(Array(7)
.fill(true))` — an absent field is replaced by seven `true`s, and the
length-7 check is applied to the resulting array. -/
def runningDaysCheck (b : ScheduleBody) : Bool :=
  (b.runningDays.getD (List.replicate 7 true)).length == 7

/-- `routes.ts` lines 331-341 (first `.refine`): when `detachTime` is
present it must lie between departure and arrival (inclusive). -/
def detachTimeOk (b : ScheduleBody) : Bool :=
  match b.detachTime with
  | none => true
  | some t => decide (b.scheduledDeparture ≤ t ∧ t ≤ b.scheduledArrival)

/-- `routes.ts` lines 342-353 (second `.refine`): same bound for
`attachTime`. -/
def attachTimeOk (b : ScheduleBody) : Bool :=
  match b.attachTime with
  | none => true
  | some t => decide (b.scheduledDeparture ≤ t ∧ t ≤ b.scheduledArrival)

/-- All checks of the zod `scheduleSchema` (`routes.ts` lines 309-353):
`z.number().min(1)` on the three id fields, the `status` enum, the
running-days length, and the two time-window refinements.  zod reports all
issues at once; success is the conjunction. -/
def scheduleBodyOk (b : ScheduleBody) : Bool :=
  decide (1 ≤ b.trainId)
    && decide (1 ≤ b.departureLocationId)
    && decide (1 ≤ b.arrivalLocationId)
    && statusAllowedPost b.status
    && runningDaysCheck b
    && detachTimeOk b
    && attachTimeOk b

/-- The parsed schedule data (`result.data` after a successful
`scheduleSchema.safeParse`), defaults applied. -/
structure ParsedSchedule where
  trainId : Int
  departureLocationId : Int
  arrivalLocationId : Int
  scheduledDeparture : Millis
  scheduledArrival : Millis
  status : Status
  isCancelled : Bool
  runningDays : List Bool
  effectiveStartDate : Millis
  effectiveEndDate : Option Millis
  detachLocationId : Option Int
  attachLocationId : Option Int
  detachTime : Option Millis
  attachTime : Option Millis
  attachTrainNumber : Option String
  attachStatus : Option AttachStatus
  importantStations : Option (List Waypoint)
  deriving DecidableEq

/-- The data a successful parse yields: every field copied, the zod
defaults (`status`, `isCancelled`, `runningDays`) applied. -/
def parsedOf (b : ScheduleBody) : ParsedSchedule :=
  { trainId := b.trainId
    departureLocationId := b.departureLocationId
    arrivalLocationId := b.arrivalLocationId
    scheduledDeparture := b.scheduledDeparture
    scheduledArrival := b.scheduledArrival
    status := b.status.getD .scheduled
    isCancelled := b.isCancelled.getD false
    runningDays := b.runningDays.getD (List.replicate 7 true)
    effectiveStartDate := b.effectiveStartDate
    effectiveEndDate := b.effectiveEndDate
    detachLocationId := b.detachLocationId
    attachLocationId := b.attachLocationId
    detachTime := b.detachTime
    attachTime := b.attachTime
    attachTrainNumber := b.attachTrainNumber
    attachStatus := b.attachStatus
    importantStations := b.importantStations }

/-- `scheduleSchema.safeParse` (`routes.ts` line 355): `none` models
`success: false` (the handler answers 400 \x22Invalid schedule data\x22). -/
def parseScheduleBody (b : ScheduleBody) : Option ParsedSchedule :=
  if scheduleBodyOk b then some (parsedOf b) else none

/-- The outcomes of the `POST /api/schedules` handler, one constructor per
return site (`routes.ts` lines 355-474); `created` carries the inserted
`scheduleData`. -/
inductive PostResponse where
  | badRequestInvalidData
  | notFoundTrain
  | badRequestAttachConfig
  | notFoundAttachLocation
  | badRequestDetachConfig
  | notFoundDetachLocation
  | badRequestTrainType
  | created (data : ParsedSchedule)
  deriving DecidableEq

/-- The `message` field of each error response, verbatim from
`routes.ts`. -/
def PostResponse.message : PostResponse → Option String
  | .badRequestInvalidData => some "Invalid schedule data"
  | .notFoundTrain => some "The specified train does not exist"
  | .badRequestAttachConfig =>
      some "When specifying attach operations, all fields (location, train number, and time) are required"
  | .notFoundAttachLocation => some "The specified attach location does not exist"
  | .badRequestDetachConfig =>
      some "When specifying detach operations, both location and time are required"
  | .notFoundDetachLocation => some "The specified detach location does not exist"
  | .badRequestTrainType =>
      some "Attach and detach operations are only available for SALOON and FTR trains"
  | .created _ => none

/-- Whether the handler accepted the request and inserted a row. -/
def PostResponse.isCreated : PostResponse → Bool
  | .created _ => true
  | _ => false

/-- The `attachStatus` of the inserted row, when a row was inserted. -/
def PostResponse.storedAttachStatus : PostResponse → Option (Option AttachStatus)
  | .created d => some d.attachStatus
  | _ => none

/-- `routes.ts` lines 432-436: the inserted `scheduleData` spreads
`result.data` and overrides `attachStatus` with
`result.data.attachTrainNumber ? 'pending' : null`. -/
def storedOf (d : ParsedSchedule) : ParsedSchedule :=
  { d with attachStatus := if truthyStr d.attachTrainNumber then some .pending else none }

/-- `routes.ts` lines 403-424: the detach block inside the SALOON/FTR
branch — if `detachLocationId || detachTime` is truthy, both must be
truthy and the detach location must exist; then the row is inserted. -/
def detachStep (d : ParsedSchedule) (detachLocationExists : Bool) : PostResponse :=
  if truthyNum d.detachLocationId || truthyDate d.detachTime then
    if !truthyNum d.detachLocationId || !truthyDate d.detachTime then
      .badRequestDetachConfig
    else if !detachLocationExists then .notFoundDetachLocation
    else .created (storedOf d)
  else .created (storedOf d)

/-- `routes.ts` lines 378-441: the train-type-conditional checks run after
a successful parse and train lookup.  In the SALOON/FTR branch the attach
triple is all-or-nothing (by truthiness) and the attach location must
exist, then the detach block runs; in any other train type the request is
rejected when `attachLocationId || detachLocationId || attachTrainNumber`
is truthy (note: `attachTime`/`detachTime` are not consulted here), else
the row is inserted directly. -/
def validateSpecialOps (d : ParsedSchedule) (ty : TrainType)
    (attachLocationExists detachLocationExists : Bool) : PostResponse :=
  if ty = .saloon ∨ ty = .ftr then
    if truthyNum d.attachLocationId || truthyStr d.attachTrainNumber
        || truthyDate d.attachTime then
      if !truthyNum d.attachLocationId || !truthyStr d.attachTrainNumber
          || !truthyDate d.attachTime then
        .badRequestAttachConfig
      else if !attachLocationExists then .notFoundAttachLocation
      else detachStep d detachLocationExists
    else detachStep d detachLocationExists
  else if truthyNum d.attachLocationId || truthyNum d.detachLocationId
      || truthyStr d.attachTrainNumber then
    .badRequestTrainType
  else .created (storedOf d)

/-- The `POST /api/schedules` handler (`routes.ts` lines 306-483) as a
function of the request body, the looked-up train row (`none` = not
found), and the existence of the attach/detach locations (the two database
lookups, supplied as booleans to keep the function free of I/O). -/
def postSchedule (b : ScheduleBody) (train : Option Train)
    (attachLocationExists detachLocationExists : Bool) : PostResponse :=
  match parseScheduleBody b with
  | none => .badRequestInvalidData
  | some d =>
    match train with
    | none => .notFoundTrain
    | some tr => validateSpecialOps d tr.type attachLocationExists detachLocationExists

/-- The typed error of a rejected status transition (spec section 7). -/
inductive TransitionError where
  | invalidTransition
  deriving DecidableEq

/-- The schedule fields the status state machine touches. -/
structure ScheduleState where
  status : Status
  actualDeparture : Option Millis
  actualArrival : Option Millis
  deriving DecidableEq

/-- Modelled from the spec: no `applyStatusTransition` implementation
exists under src/; spec section 4.2 lists the allowed transitions
`scheduled → running → \x7bdelayed, completed, cancelled\x7d` and
`delayed → \x7brunning, completed, cancelled\x7d`, with `completed` and
`cancelled` terminal.  Exactly the listed transitions are allowed. -/
def allowedTransition : Status → Status → Bool
  | .scheduled, .running => true
  | .running, .delayed => true
  | .running, .completed => true
  | .running, .cancelled => true
  | .delayed, .running => true
  | .delayed, .completed => true
  | .delayed, .cancelled => true
  | _, _ => false

/-- Modelled from the spec: `applyStatusTransition` (spec sections 4.2 and
6).  An allowed transition updates the status, stamps `actualDeparture`
on entering `running` and `actualArrival` on entering `completed` when not
already set; an invalid transition returns the typed error and the
schedule is left untouched. -/
def applyStatusTransition (s : ScheduleState) (newStatus : Status) (now : Millis) :
    Except TransitionError ScheduleState :=
  if allowedTransition s.status newStatus then
    .ok { status := newStatus
          actualDeparture :=
            if newStatus = .running ∧ s.actualDeparture = none then some now
            else s.actualDeparture
          actualArrival :=
            if newStatus = .completed ∧ s.actualArrival = none then some now
            else s.actualArrival }
  else .error .invalidTransition

/-! ### Concrete sample data

345600000 ms = 4 days after the epoch = Monday 1970-01-05;
86400000 ms per day; 36000000 ms = 10:00, 28800000 ms = 08:00. -/

/-- A baseline schedule row for the timeline: not cancelled, runs every
day, effective from the epoch, no end date. -/
def sampleTimeline : TimelineSchedule :=
  { id := 1
    trainId := 1
    scheduledDeparture := 345600000
    scheduledArrival := 345630000
    status := .scheduled
    isCancelled := false
    runningDays := List.replicate 7 true
    effectiveStartDate := 0
    effectiveEndDate := none
    train := none }

/-- A baseline request body that passes every check of the zod schema:
valid ids, departure 0 and arrival 100, all optional fields absent. -/
def sampleBody : ScheduleBody :=
  { trainId := 1
    departureLocationId := 1
    arrivalLocationId := 2
    scheduledDeparture := 0
    scheduledArrival := 100
    status := none
    isCancelled := none
    runningDays := none
    effectiveStartDate := 0
    effectiveEndDate := none
    detachLocationId := none
    attachLocationId := none
    detachTime := none
    attachTime := none
    attachTrainNumber := none
    attachStatus := none
    importantStations := none }

/-- A cancelled schedule otherwise active everywhere (for C1). -/
def c1Sched : TimelineSchedule := { sampleTimeline with isCancelled := true }

/-- A body whose scheduled arrival equals its scheduled departure (C2). -/
def c2Body : ScheduleBody :=
  { sampleBody with scheduledDeparture := 100, scheduledArrival := 100 }

/-- A schedule running on Mondays only (C3 witness). -/
def c3Sched : TimelineSchedule :=
  { sampleTimeline with
      runningDays := [true, false, false, false, false, false, false] }

/-- Effective from 1970-01-01 00:00 (C4). -/
def c4SchedA : TimelineSchedule := sampleTimeline

/-- Effective from 1970-01-01 10:00 — same calendar day as `c4SchedA`,
different time of day (C4). -/
def c4SchedB : TimelineSchedule :=
  { sampleTimeline with effectiveStartDate := 36000000 }

/-- Effective from Monday 1970-01-05 (C4 witness). -/
def c4SchedStartLate : TimelineSchedule :=
  { sampleTimeline with effectiveStartDate := 345600000 }

/-- Effective window ending on 1970-01-01 (C4 witness). -/
def c4SchedEndEarly : TimelineSchedule :=
  { sampleTimeline with effectiveEndDate := some 100 }

/-- Only `attachTime` populated, within the departure/arrival window
(C5). -/
def c5Body : ScheduleBody := { sampleBody with attachTime := some 50 }

/-- Only `attachLocationId` populated (C5 witness). -/
def c5wBody : ScheduleBody := { sampleBody with attachLocationId := some 5 }

/-- `attachTrainNumber` present but equal to the empty string (C6). -/
def c6Body : ScheduleBody := { sampleBody with attachTrainNumber := some "" }

/-- The spec's FTR example: `attachLocationId = 5` and `attachTime` set,
`attachTrainNumber` absent (C6 witness). -/
def c6wAttach : ScheduleBody :=
  { sampleBody with attachLocationId := some 5, attachTime := some 50 }

/-- Only `detachTime` populated (C6 witness). -/
def c6wDetach : ScheduleBody := { sampleBody with detachTime := some 50 }

/-- Equal departure and arrival locations (C8). -/
def c8Body : ScheduleBody := { sampleBody with arrivalLocationId := 1 }

/-- Departure location id 0, rejected by `z.number().min(1)` (C8
witness). -/
def c8wBody : ScheduleBody := { sampleBody with departureLocationId := 0 }

/-- `attachTrainNumber` present but empty, caller-supplied `attachStatus`
of `completed` (C9). -/
def c9Body : ScheduleBody :=
  { sampleBody with attachTrainNumber := some "", attachStatus := some .completed }

/-- A fully specified attach triple on a SALOON schedule (C9 witness). -/
def c9wBody : ScheduleBody :=
  { sampleBody with
      attachLocationId := some 5
      attachTrainNumber := some "12345"
      attachTime := some 50 }

/-! ### Helper lemmas -/

/-- The activity verdict is the negation of the filter condition. -/
theorem isActiveOn_eq_not_filtered (s : TimelineSchedule) (now : Millis) :
    isActiveOn s now = !timelineFiltered s now := by
  unfold isActiveOn timelineEvents
  split <;> simp_all

/-- A successful parse returns exactly the copied-and-defaulted data. -/
theorem parseScheduleBody_eq_some {b : ScheduleBody} {d : ParsedSchedule}
    (h : parseScheduleBody b = some d) : d = parsedOf b ∧ scheduleBodyOk b = true := by
  unfold parseScheduleBody at h
  split at h
  · exact ⟨(Option.some_inj.mp h).symm, by assumption⟩
  · exact absurd h (by simp)

/-- Day-granularity strict order implies timestamp strict order. -/
theorem lt_of_dayOf_lt {a b : Millis} (h : dayOf a < dayOf b) : a < b := by
  by_contra hle
  have hd : dayOf b ≤ dayOf a := Nat.div_le_div_right (Nat.le_of_not_lt hle)
  omega

/-- Every accepted request stores `storedOf` of the parsed data. -/
theorem validateSpecialOps_created {d s : ParsedSchedule} {ty : TrainType}
    {aex dex : Bool} (h : validateSpecialOps d ty aex dex = .created s) :
    s = storedOf d := by
  unfold validateSpecialOps detachStep at h
  repeat' split at h
  all_goals simp_all

/-! ### Claims -/

/-- C1, counterexample: the timeline filter never reads `isCancelled` —
`c1Sched` is cancelled, inside its effective window, on a running day, and
`isActiveOn` still reports it active (the event is merely styled red), so
cancellation does not make the schedule inactive. -/
theorem c1_counterexample :
    c1Sched.isCancelled = true ∧ isActiveOn c1Sched 345600000 = true := by
  decide

/-- C1, amended: `isActiveOn` ignores `isCancelled` entirely — flipping
the flag never changes the verdict (the client renders cancelled
schedules in a different colour instead of hiding them). -/
theorem c1_isActiveOn_ignores_isCancelled (s : TimelineSchedule) (b : Bool) (t : Millis) :
    isActiveOn { s with isCancelled := b } t = isActiveOn s t := by
  rw [isActiveOn_eq_not_filtered, isActiveOn_eq_not_filtered]
  rfl

/-- C2: the claim is right and the code wrong — the zod `scheduleSchema`
of `POST /api/schedules` has no arrival-after-departure refinement, so a
candidate whose `scheduledArrival` equals its `scheduledDeparture` is
accepted and inserted, although the repository's own documentation
(`docs/database.md`, CHECK `scheduled_arrival > scheduled_departure`) and
its import client (`ImportSchedules.tsx`) require arrival after
departure. -/
theorem c2_accepts_arrival_not_after_departure :
    c2Body.scheduledArrival ≤ c2Body.scheduledDeparture ∧
    (postSchedule c2Body (some { id := 1, type := .express }) true true).isCreated = true := by
  decide

/-- C3: for a non-cancelled schedule and a target date inside the
effective window, `isActiveOn` equals the running-days entry at the
Monday-0 day-of-week index (the explicit `(getDay() + 6) % 7`
conversion from the platform's Sunday-0 convention). -/
theorem c3_active_iff_running_day (s : TimelineSchedule) (t : Millis)
    (hc : s.isCancelled = false)
    (hstart : s.effectiveStartDate ≤ t)
    (hend : ∀ e, s.effectiveEndDate = some e → t ≤ e) :
    isActiveOn s t = s.runningDays.getD (dayOfWeekMon0 t) false := by
  rw [isActiveOn_eq_not_filtered]
  unfold timelineFiltered
  have h1 : decide (s.effectiveStartDate > t) = false := by
    simp only [decide_eq_false_iff_not, gt_iff_lt, not_lt]
    exact hstart
  rw [h1]
  cases he : s.effectiveEndDate with
  | none => simp
  | some e =>
    have h2 : decide (e < t) = false := by
      simp only [decide_eq_false_iff_not, not_lt]
      exact hend e he
    simp [h2]

/-- C3 witness: the Monday-only schedule evaluated on Monday
1970-01-05. -/
theorem c3_active_iff_running_day_witness :
    isActiveOn c3Sched 345600000 =
      c3Sched.runningDays.getD (dayOfWeekMon0 345600000) false :=
  c3_active_iff_running_day c3Sched 345600000 (by decide) (by decide)
    (fun e he => Option.noConfusion he)

/-- C4, counterexample: the window comparison is not performed at day
granularity — `c4SchedA` and `c4SchedB` have their `effectiveStartDate`
on the same calendar day (differing only in time of day), the target
instant lies on that same day, yet one schedule is active and the other
is not, so the time-of-day component is not ignored. -/
theorem c4_counterexample :
    dayOf c4SchedA.effectiveStartDate = dayOf c4SchedB.effectiveStartDate ∧
    dayOf 28800000 = dayOf c4SchedB.effectiveStartDate ∧
    isActiveOn c4SchedA 28800000 = true ∧
    isActiveOn c4SchedB 28800000 = false := by
  decide

/-- C4, amended: `isActiveOn` returns false for every target whose
calendar day is strictly before `effectiveStartDate`'s day and, when
`effectiveEndDate` is present, strictly after its day; the comparisons
however use the full timestamps, so on the boundary days the time of day
matters (see the counterexample). -/
theorem c4_inactive_outside_window (s : TimelineSchedule) (t : Millis) :
    (dayOf t < dayOf s.effectiveStartDate → isActiveOn s t = false) ∧
    (∀ e, s.effectiveEndDate = some e → dayOf e < dayOf t → isActiveOn s t = false) := by
  constructor
  · intro h
    have hlt : t < s.effectiveStartDate := lt_of_dayOf_lt h
    rw [isActiveOn_eq_not_filtered]
    unfold timelineFiltered
    simp [hlt]
  · intro e he h
    have hlt : e < t := lt_of_dayOf_lt h
    rw [isActiveOn_eq_not_filtered]
    unfold timelineFiltered
    rw [he]
    simp [hlt]

/-- C4 witness: a target four days before the start date is inactive, and
a target four days after the end date is inactive. -/
theorem c4_inactive_outside_window_witness :
    isActiveOn c4SchedStartLate 0 = false ∧
    isActiveOn c4SchedEndEarly 345600000 = false :=
  ⟨(c4_inactive_outside_window c4SchedStartLate 0).1 (by decide),
   (c4_inactive_outside_window c4SchedEndEarly 345600000).2 100 rfl (by decide)⟩

/-- C5, counterexample: the non-SALOON/FTR gate checks only
`attachLocationId || detachLocationId || attachTrainNumber` — it never
reads `attachTime` or `detachTime`, so an EXPRESS schedule whose only
populated attach/detach field is `attachTime` is accepted, contradicting
"any one of the five fields non-empty is rejected". -/
theorem c5_counterexample :
    c5Body.attachTime = some 50 ∧
    (postSchedule c5Body (some { id := 1, type := .express }) true true).isCreated = true := by
  decide

/-- C5, amended: for a train whose type is neither SALOON nor FTR, a
request in which any of `attachLocationId`, `detachLocationId`,
`attachTrainNumber` is truthy (non-zero number / non-empty string) is
rejected with the attach/detach-only-for-SALOON-and-FTR violation;
`attachTime` and `detachTime` alone do not trigger the gate. -/
theorem c5_type_gate (b : ScheduleBody) (tr : Train) (d : ParsedSchedule)
    (aex dex : Bool)
    (hp : parseScheduleBody b = some d)
    (hsal : tr.type ≠ .saloon) (hftr : tr.type ≠ .ftr)
    (hgate : (truthyNum b.attachLocationId || truthyNum b.detachLocationId
        || truthyStr b.attachTrainNumber) = true) :
    postSchedule b (some tr) aex dex = .badRequestTrainType ∧
    (postSchedule b (some tr) aex dex).message =
      some "Attach and detach operations are only available for SALOON and FTR trains" := by
  obtain ⟨hd, -⟩ := parseScheduleBody_eq_some hp
  subst hd
  have hres : postSchedule b (some tr) aex dex = .badRequestTrainType := by
    simp [postSchedule, hp, validateSpecialOps, parsedOf, hsal, hftr, hgate]
  exact ⟨hres, by rw [hres]; rfl⟩

/-- C5 witness: an EXPRESS schedule with `attachLocationId = 5` is
rejected by the train-type gate. -/
theorem c5_type_gate_witness :
    postSchedule c5wBody (some { id := 1, type := .express }) true true =
      .badRequestTrainType :=
  (c5_type_gate c5wBody { id := 1, type := .express } (parsedOf c5wBody)
    true true (by decide) (by decide) (by decide) (by decide)).1

/-- C6, counterexample: presence is measured by JavaScript truthiness, so
`attachTrainNumber = ""` (present but empty) on a SALOON schedule does
not trigger the all-or-nothing check: exactly one of the attach triple is
present and the request is still accepted. -/
theorem c6_counterexample :
    c6Body.attachTrainNumber = some "" ∧ c6Body.attachLocationId = none ∧
    c6Body.attachTime = none ∧
    (postSchedule c6Body (some { id := 1, type := .saloon }) true true).isCreated = true := by
  decide

/-- C6, amended: for SALOON/FTR trains, with presence measured as the
handler measures it (a number field is present when non-zero, a string
when non-empty, a time when non-null): if at least one but not all of
the attach triple is present the request is rejected with the attach
violation, and if at least one but not both of the detach pair is
present (the attach triple being wholly absent) the request is rejected
with the detach violation. -/
theorem c6_all_or_nothing :
    (∀ (b : ScheduleBody) (tr : Train) (d : ParsedSchedule) (aex dex : Bool),
      parseScheduleBody b = some d →
      (tr.type = .saloon ∨ tr.type = .ftr) →
      (truthyNum b.attachLocationId || truthyStr b.attachTrainNumber
        || truthyDate b.attachTime) = true →
      (truthyNum b.attachLocationId && truthyStr b.attachTrainNumber
        && truthyDate b.attachTime) = false →
      postSchedule b (some tr) aex dex = .badRequestAttachConfig) ∧
    (∀ (b : ScheduleBody) (tr : Train) (d : ParsedSchedule) (aex dex : Bool),
      parseScheduleBody b = some d →
      (tr.type = .saloon ∨ tr.type = .ftr) →
      (truthyNum b.attachLocationId || truthyStr b.attachTrainNumber
        || truthyDate b.attachTime) = false →
      (truthyNum b.detachLocationId || truthyDate b.detachTime) = true →
      (truthyNum b.detachLocationId && truthyDate b.detachTime) = false →
      postSchedule b (some tr) aex dex = .badRequestDetachConfig) := by
  constructor
  · intro b tr d aex dex hp hty hsome hnall
    obtain ⟨hd, -⟩ := parseScheduleBody_eq_some hp
    subst hd
    simp only [postSchedule, hp, validateSpecialOps, parsedOf, if_pos hty]
    cases ha : truthyNum b.attachLocationId <;>
      cases hb : truthyStr b.attachTrainNumber <;>
      cases hc : truthyDate b.attachTime <;>
      simp_all
  · intro b tr d aex dex hp hty hnone hsome hnall
    obtain ⟨hd, -⟩ := parseScheduleBody_eq_some hp
    subst hd
    simp only [postSchedule, hp, validateSpecialOps, parsedOf, if_pos hty, hnone,
      detachStep]
    cases ha : truthyNum b.detachLocationId <;>
      cases hb : truthyDate b.detachTime <;>
      simp_all

/-- C6 witness: the spec's FTR example (attach location and time present,
train number absent) is rejected with the attach violation, and a SALOON
schedule with only `detachTime` present is rejected with the detach
violation. -/
theorem c6_all_or_nothing_witness :
    postSchedule c6wAttach (some { id := 1, type := .ftr }) true true =
      .badRequestAttachConfig ∧
    postSchedule c6wDetach (some { id := 1, type := .saloon }) true true =
      .badRequestDetachConfig :=
  ⟨c6_all_or_nothing.1 c6wAttach { id := 1, type := .ftr } (parsedOf c6wAttach)
      true true (by decide) (Or.inr rfl) (by decide) (by decide),
   c6_all_or_nothing.2 c6wDetach { id := 1, type := .saloon } (parsedOf c6wDetach)
      true true (by decide) (Or.inl rfl) (by decide) (by decide) (by decide)⟩

/-- C7 (modelled from the spec, no implementation under src/): `completed`
is terminal — transitioning a completed schedule to any status other than
`completed` yields the invalid-transition error, and no updated schedule
is produced. -/
theorem c7_completed_terminal (s : ScheduleState) (ns : Status) (now : Millis)
    (hs : s.status = .completed) (hns : ns ≠ .completed) :
    applyStatusTransition s ns now = .error .invalidTransition := by
  cases ns with
  | completed => exact absurd rfl hns
  | scheduled => simp [applyStatusTransition, allowedTransition, hs]
  | running => simp [applyStatusTransition, allowedTransition, hs]
  | delayed => simp [applyStatusTransition, allowedTransition, hs]
  | cancelled => simp [applyStatusTransition, allowedTransition, hs]

/-- C7 witness: `completed → running` is rejected. -/
theorem c7_completed_terminal_witness :
    applyStatusTransition
      { status := .completed, actualDeparture := none, actualArrival := none }
      .running 0 = .error .invalidTransition :=
  c7_completed_terminal
    { status := .completed, actualDeparture := none, actualArrival := none }
    .running 0 rfl (by decide)

/-- C8, counterexample: no check compares the two location references —
a candidate with `departureLocationId = arrivalLocationId = 1` passes the
zod schema and is accepted. -/
theorem c8_counterexample :
    c8Body.departureLocationId = c8Body.arrivalLocationId ∧
    (postSchedule c8Body (some { id := 1, type := .express }) true true).isCreated = true := by
  decide

/-- C8, amended: the two location references are required —
`z.number().min(1)` rejects any candidate in which either id is below 1 —
but the validator never requires them to differ. -/
theorem c8_locations_required (b : ScheduleBody) (tr : Option Train) (aex dex : Bool)
    (h : b.departureLocationId < 1 ∨ b.arrivalLocationId < 1) :
    postSchedule b tr aex dex = .badRequestInvalidData := by
  have hok : scheduleBodyOk b = false := by
    unfold scheduleBodyOk
    rcases h with h | h
    · have hdep : decide (1 ≤ b.departureLocationId) = false := by
        simp only [decide_eq_false_iff_not, not_le]
        exact h
      simp [hdep]
    · have harr : decide (1 ≤ b.arrivalLocationId) = false := by
        simp only [decide_eq_false_iff_not, not_le]
        exact h
      simp [harr]
  simp [postSchedule, parseScheduleBody, hok]

/-- C8 witness: departure location id 0 is rejected as invalid data. -/
theorem c8_locations_required_witness :
    postSchedule c8wBody none true true = .badRequestInvalidData :=
  c8_locations_required c8wBody none true true (Or.inl (by decide))

/-- C9, counterexample: `attachStatus` is derived from the truthiness of
`attachTrainNumber`, not its presence — with `attachTrainNumber = ""`
(present) and a caller-supplied `attachStatus` of `completed`, the stored
row's `attachStatus` is null, not `pending`. -/
theorem c9_counterexample :
    c9Body.attachTrainNumber = some "" ∧
    c9Body.attachStatus = some .completed ∧
    (postSchedule c9Body (some { id := 1, type := .express }) true true).storedAttachStatus =
      some none := by
  decide

/-- C9, amended: for every accepted request the stored `attachStatus` is
`pending` exactly when `attachTrainNumber` is truthy (present and
non-empty) and null otherwise, regardless of any caller-supplied
`attachStatus`. -/
theorem c9_attach_status_derived (b : ScheduleBody) (tr : Option Train)
    (aex dex : Bool) (s : ParsedSchedule)
    (h : postSchedule b tr aex dex = .created s) :
    s.attachStatus =
      if truthyStr b.attachTrainNumber then some .pending else none := by
  unfold postSchedule at h
  cases hp : parseScheduleBody b with
  | none => rw [hp] at h; exact absurd h (by simp)
  | some d =>
    rw [hp] at h
    cases tr with
    | none => exact absurd h (by simp)
    | some tr =>
      simp only [] at h
      have hs := validateSpecialOps_created h
      obtain ⟨hd, -⟩ := parseScheduleBody_eq_some hp
      subst hd hs
      simp [storedOf, parsedOf]

/-- C9 witness: a SALOON schedule with a full attach triple stores
`attachStatus = pending`. -/
theorem c9_attach_status_derived_witness :
    (storedOf (parsedOf c9wBody)).attachStatus =
      if truthyStr c9wBody.attachTrainNumber then some .pending else none :=
  c9_attach_status_derived c9wBody (some { id := 1, type := .saloon }) true true
    (storedOf (parsedOf c9wBody)) (by decide)

/-- C10: when `runningDays` is omitted the field-level validation
succeeds (the defaulted array passes the length-7 check) and the parsed
schedule's `runningDays` is exactly seven entries, all `true`. -/
theorem c10_running_days_default :
    (∀ b : ScheduleBody, b.runningDays = none → runningDaysCheck b = true) ∧
    (∀ (b : ScheduleBody) (d : ParsedSchedule), b.runningDays = none →
      parseScheduleBody b = some d →
      d.runningDays = List.replicate 7 true ∧ d.runningDays.length = 7 ∧
        ∀ x ∈ d.runningDays, x = true) := by
  constructor
  · intro b hb
    unfold runningDaysCheck
    rw [hb]
    decide
  · intro b d hb hp
    obtain ⟨hd, -⟩ := parseScheduleBody_eq_some hp
    subst hd
    refine ⟨?_, ?_, ?_⟩ <;> simp [parsedOf, hb]

/-- C10 witness: the baseline body omits `runningDays`; its parse yields
seven `true`s. -/
theorem c10_running_days_default_witness :
    runningDaysCheck sampleBody = true ∧
    (parsedOf sampleBody).runningDays = List.replicate 7 true :=
  ⟨c10_running_days_default.1 sampleBody rfl,
   (c10_running_days_default.2 sampleBody (parsedOf sampleBody) rfl (by decide)).1⟩

end RailOps
